import Mathlib

/-!
Verification development for the Digit-Recognition-with-NN repository.

The repository is a single notebook (src/digit_recognition.ipynb) whose code
cells form one straight-line Python script: it loads the MNIST dataset,
normalizes the image arrays, builds and trains a dense model and a
convolutional SimpleNet model through the Keras API, evaluates the dense
model on the test set and prints the resulting loss and accuracy.

We embed the notebook shallowly: a statement language `Stmt` mirroring the
Python statements of the code cells (with constructors for the control-flow
forms the notebook could have used but does not), an interpreter `runStmt`
over an explicit state `St` that records every framework call in a trace of
`Event`s, and the notebook itself as the concrete list `program`.  The
claims are settled as theorems about `program` and the trace of its run.
-/

namespace DigitRecognition

/-- Activation functions that appear as string arguments in the notebook. -/
inductive Activation where
  | relu
  | softmax
deriving DecidableEq, Repr

/-- Keras layers constructed by the notebook.  `flattenInput` is
`Flatten(input_shape=(28, 28, 1))`, `conv2D f kh kw act shape` is
`Conv2D(f, (kh, kw), activation=act, input_shape=shape)`, `batchNorm` is
`BatchNormalization()`, `maxPool ph pw` is `MaxPooling2D((ph, pw))`. -/
inductive Layer where
  | flattenInput (h w c : Nat)
  | dense (units : Nat) (act : Activation)
  | conv2D (filters kh kw : Nat) (act : Activation) (inputShape : Option (Nat × Nat × Nat))
  | batchNorm
  | maxPool (ph pw : Nat)
  | flatten
deriving DecidableEq, Repr

/-- Abstract data values: the four arrays returned by `mnist.load_data()`
and the result of `tf.keras.utils.normalize(d, axis=a)`. -/
inductive Data where
  | xTrainRaw
  | yTrainRaw
  | xTestRaw
  | yTestRaw
  | norm (d : Data) (axis : Nat)
deriving DecidableEq, Repr

/-- The two model variables of the notebook: `model` and `SimpleNet_model`. -/
inductive MVar where
  | model
  | simpleNet
deriving DecidableEq, Repr

/-- The four data variables of the notebook. -/
inductive DVar where
  | x_train
  | y_train
  | x_test
  | y_test
deriving DecidableEq, Repr

/-- The two metric variables bound by `loss, accuracy = model.evaluate(...)`. -/
inductive PVar where
  | loss
  | accuracy
deriving DecidableEq, Repr

/-- The optimizer name passed to `compile` ("adam"). -/
inductive OptimizerName where
  | adam
deriving DecidableEq, Repr

/-- The loss name passed to `compile` ("sparse_categorical_crossentropy"). -/
inductive LossName where
  | sparseCategoricalCrossentropy
deriving DecidableEq, Repr

/-- The metric name passed to `compile` ("accuracy"). -/
inductive MetricName where
  | accuracy
deriving DecidableEq, Repr

/-- The literal labels of the two print statements ("Loss: ", "Accuracy: "). -/
inductive LabelText where
  | lossLabel
  | accuracyLabel
deriving DecidableEq, Repr

/-- Model file paths appearing in the notebook (all only inside comments). -/
inductive ModelPath where
  | blue1024
  | blue2048
  | simpleNetSaved
deriving DecidableEq, Repr

/-- The three commented-out lines of the evaluation cell, each of the form
`loss, accuracy = tf.keras.models.load_model(path).evaluate(x_test, y_test)`. -/
inductive CommentText where
  | loadModelEval (p : ModelPath)
deriving DecidableEq, Repr

/-- Abstract metric values: the loss and the accuracy computed by
`m.evaluate(x, y)` for a model with the given layers on data `x`, `y`. -/
inductive Metric where
  | lossOf (layers : List Layer) (x y : Data)
  | accOf (layers : List Layer) (x y : Data)
deriving DecidableEq, Repr

/-- One framework call (or print) performed during a run, in order. -/
inductive Event where
  | loadData
  | normalizeCall (arg : Data) (axis : Nat)
  | sequentialNew (m : MVar)
  | addCall (m : MVar) (l : Layer)
  | compileCall (m : MVar) (opt : OptimizerName) (lossFn : LossName) (metric : MetricName)
  | fitCall (m : MVar) (x y : Data) (epochs : Nat) (batchSize : Option Nat)
  | evaluateCall (m : MVar) (x y : Data)
  | printCall (label : LabelText) (v : Metric)
  | saveCall (m : MVar) (p : ModelPath)
  | loadModelCall (p : ModelPath)
deriving DecidableEq, Repr

/-- A Sequential model value: its layer list, in order of the `add` calls,
and its compile configuration once `compile` has been called. -/
structure ModelVal where
  layers : List Layer
  compileCfg : Option (OptimizerName × LossName × MetricName)
deriving DecidableEq, Repr

/-- Statements of the notebook language.  The first group mirrors the
statements actually present in the code cells; the second group
(`forStmt` .. `classStmt`, `saveStmt`, `loadModelStmt`) gives the language
the control-flow, definition and persistence forms Python offers, so that
their absence from `program` is a statement about the notebook rather than
about the language. -/
inductive Stmt where
  | importTF
  | assignMnist
  | loadDataStmt
  | normalizeStmt (tgt src : DVar) (axis : Nat)
  | sequentialStmt (m : MVar)
  | addStmt (m : MVar) (l : Layer)
  | compileStmt (m : MVar) (opt : OptimizerName) (lossFn : LossName) (metric : MetricName)
  | fitStmt (m : MVar) (x y : DVar) (epochs : Nat) (batchSize : Option Nat)
  | evaluateStmt (m : MVar) (x y : DVar)
  | printStmt (label : LabelText) (v : PVar)
  | commentStmt (text : CommentText)
  | saveStmt (m : MVar) (p : ModelPath)
  | loadModelStmt (tgt : MVar) (p : ModelPath)
  | forStmt (iterations : Nat) (body : List Stmt)
  | whileStmt (cond : Bool) (body : List Stmt)
  | ifStmt (cond : Bool) (thn els : List Stmt)
  | defStmt (body : List Stmt)
  | classStmt (body : List Stmt)

/-- Interpreter state: the four data variables, the two model variables,
the two metric variables, and the trace of framework calls so far. -/
structure St where
  x_train : Option Data
  y_train : Option Data
  x_test : Option Data
  y_test : Option Data
  model : Option ModelVal
  simpleNet : Option ModelVal
  loss : Option Metric
  accuracy : Option Metric
  trace : List Event
deriving Repr

/-- Read a data variable. -/
def St.getData (st : St) : DVar → Option Data
  | .x_train => st.x_train
  | .y_train => st.y_train
  | .x_test => st.x_test
  | .y_test => st.y_test

/-- Write a data variable. -/
def St.setData (st : St) (v : DVar) (d : Data) : St :=
  match v with
  | .x_train => { st with x_train := some d }
  | .y_train => { st with y_train := some d }
  | .x_test => { st with x_test := some d }
  | .y_test => { st with y_test := some d }

/-- Read a model variable. -/
def St.getModel (st : St) : MVar → Option ModelVal
  | .model => st.model
  | .simpleNet => st.simpleNet

/-- Write a model variable. -/
def St.setModel (st : St) (v : MVar) (m : ModelVal) : St :=
  match v with
  | .model => { st with model := some m }
  | .simpleNet => { st with simpleNet := some m }

/-- Append one event to the trace. -/
def emit (st : St) (e : Event) : St :=
  { st with trace := st.trace ++ [e] }

/-- The pair returned by `m.evaluate(x, y)`: the loss first, the accuracy
second, as in the Keras metrics configured by `compile`. -/
def evaluateResult (layers : List Layer) (x y : Data) : Metric × Metric :=
  (Metric.lossOf layers x y, Metric.accOf layers x y)

/-- One step of the interpreter.  Statements that would fail in Python
(reading an unbound variable, fitting or evaluating an uncompiled model)
yield `none`.  The interpreter covers the straight-line fragment the
notebook uses; the control-flow and definition forms are outside it. -/
def runStmt (st : St) : Stmt → Option St
  | .importTF => some st
  | .assignMnist => some st
  | .commentStmt _ => some st
  | .loadDataStmt =>
      some (emit { st with
        x_train := some Data.xTrainRaw, y_train := some Data.yTrainRaw,
        x_test := some Data.xTestRaw, y_test := some Data.yTestRaw } Event.loadData)
  | .normalizeStmt tgt src a => do
      let d ← st.getData src
      pure (emit (st.setData tgt (Data.norm d a)) (Event.normalizeCall d a))
  | .sequentialStmt m =>
      some (emit (st.setModel m ⟨[], none⟩) (Event.sequentialNew m))
  | .addStmt m l => do
      let mv ← st.getModel m
      pure (emit (st.setModel m { mv with layers := mv.layers ++ [l] }) (Event.addCall m l))
  | .compileStmt m o lf mt => do
      let mv ← st.getModel m
      pure (emit (st.setModel m { mv with compileCfg := some (o, lf, mt) })
        (Event.compileCall m o lf mt))
  | .fitStmt m x y e b => do
      let mv ← st.getModel m
      let dx ← st.getData x
      let dy ← st.getData y
      if mv.compileCfg.isSome then
        pure (emit st (Event.fitCall m dx dy e b))
      else none
  | .evaluateStmt m x y => do
      let mv ← st.getModel m
      let dx ← st.getData x
      let dy ← st.getData y
      if mv.compileCfg.isSome then
        pure (emit { st with
          loss := some (evaluateResult mv.layers dx dy).1,
          accuracy := some (evaluateResult mv.layers dx dy).2 }
          (Event.evaluateCall m dx dy))
      else none
  | .printStmt label v => do
      let mv ← (match v with | .loss => st.loss | .accuracy => st.accuracy)
      pure (emit st (Event.printCall label mv))
  | .saveStmt m p => do
      let _ ← st.getModel m
      pure (emit st (Event.saveCall m p))
  | .loadModelStmt tgt p =>
      some (emit (st.setModel tgt ⟨[], none⟩) (Event.loadModelCall p))
  | .forStmt _ _ => none
  | .whileStmt _ _ => none
  | .ifStmt _ _ _ => none
  | .defStmt _ => none
  | .classStmt _ => none

/-- Run a statement list in order. -/
def runProg : List Stmt → St → Option St
  | [], st => some st
  | s :: rest, st => do
      let st' ← runStmt st s
      runProg rest st'

/-- The layers of the dense model, in the order of its `add` calls. -/
def denseLayers : List Layer :=
  [Layer.flattenInput 28 28 1,
   Layer.dense 16 Activation.relu,
   Layer.dense 16 Activation.relu,
   Layer.dense 10 Activation.softmax]

/-- The layers of the SimpleNet model, in the order of its `add` calls. -/
def simpleNetLayers : List Layer :=
  [Layer.conv2D 32 3 3 Activation.relu (some (28, 28, 1)),
   Layer.batchNorm,
   Layer.maxPool 2 2,
   Layer.conv2D 64 3 3 Activation.relu none,
   Layer.batchNorm,
   Layer.maxPool 2 2,
   Layer.flatten,
   Layer.dense 64 Activation.relu,
   Layer.dense 10 Activation.softmax]

/-- The notebook's code cells, statement by statement, in order. -/
def program : List Stmt :=
  [ -- cell 1: data loading and normalization
   Stmt.importTF,
   Stmt.assignMnist,
   Stmt.loadDataStmt,
   Stmt.normalizeStmt DVar.x_train DVar.x_train 1,
   Stmt.normalizeStmt DVar.x_test DVar.x_test 1,
   -- cell 2: dense model definition and training
   Stmt.sequentialStmt MVar.model,
   Stmt.addStmt MVar.model (Layer.flattenInput 28 28 1),
   Stmt.addStmt MVar.model (Layer.dense 16 Activation.relu),
   Stmt.addStmt MVar.model (Layer.dense 16 Activation.relu),
   Stmt.addStmt MVar.model (Layer.dense 10 Activation.softmax),
   Stmt.compileStmt MVar.model OptimizerName.adam
     LossName.sparseCategoricalCrossentropy MetricName.accuracy,
   Stmt.fitStmt MVar.model DVar.x_train DVar.y_train 3 none,
   -- cell 3: SimpleNet model definition and training
   Stmt.sequentialStmt MVar.simpleNet,
   Stmt.addStmt MVar.simpleNet (Layer.conv2D 32 3 3 Activation.relu (some (28, 28, 1))),
   Stmt.addStmt MVar.simpleNet Layer.batchNorm,
   Stmt.addStmt MVar.simpleNet (Layer.maxPool 2 2),
   Stmt.addStmt MVar.simpleNet (Layer.conv2D 64 3 3 Activation.relu none),
   Stmt.addStmt MVar.simpleNet Layer.batchNorm,
   Stmt.addStmt MVar.simpleNet (Layer.maxPool 2 2),
   Stmt.addStmt MVar.simpleNet Layer.flatten,
   Stmt.addStmt MVar.simpleNet (Layer.dense 64 Activation.relu),
   Stmt.addStmt MVar.simpleNet (Layer.dense 10 Activation.softmax),
   Stmt.compileStmt MVar.simpleNet OptimizerName.adam
     LossName.sparseCategoricalCrossentropy MetricName.accuracy,
   Stmt.fitStmt MVar.simpleNet DVar.x_train DVar.y_train 10 (some 64),
   -- cell 4: evaluation and metric printing
   Stmt.evaluateStmt MVar.model DVar.x_test DVar.y_test,
   Stmt.commentStmt (CommentText.loadModelEval ModelPath.blue1024),
   Stmt.commentStmt (CommentText.loadModelEval ModelPath.blue2048),
   Stmt.commentStmt (CommentText.loadModelEval ModelPath.simpleNetSaved),
   Stmt.printStmt LabelText.lossLabel PVar.loss,
   Stmt.printStmt LabelText.accuracyLabel PVar.accuracy]

/-- The initial state: nothing bound, empty trace. -/
def initSt : St :=
  { x_train := none, y_train := none, x_test := none, y_test := none,
    model := none, simpleNet := none, loss := none, accuracy := none,
    trace := [] }

/-- The result of running the notebook once from the start. -/
def notebookRun : Option St :=
  runProg program initSt

/-- The trace of framework calls of the notebook's run. -/
def theTrace : List Event :=
  (notebookRun.map St.trace).getD []

/-- The six kinds of step the spec names, plus persistence (which the
notebook never performs). -/
inductive Step where
  | acquisition
  | normalization
  | modelDefinition
  | training
  | evaluation
  | printing
  | persistence
deriving DecidableEq, Repr

/-- Classify a framework call into the spec's steps.  `compile` configures
the optimizer and loss for training (the notebook places it under the
comment "Train the model"), so it is counted as a training call. -/
def stepOf : Event → Step
  | .loadData => .acquisition
  | .normalizeCall _ _ => .normalization
  | .sequentialNew _ => .modelDefinition
  | .addCall _ _ => .modelDefinition
  | .compileCall _ _ _ _ => .training
  | .fitCall _ _ _ _ _ => .training
  | .evaluateCall _ _ _ => .evaluation
  | .printCall _ _ => .printing
  | .saveCall _ _ => .persistence
  | .loadModelCall _ => .persistence

/-- The position of a step in the spec's claimed order (a) to (f). -/
def stepRank : Step → Nat
  | .acquisition => 0
  | .normalization => 1
  | .modelDefinition => 2
  | .training => 3
  | .evaluation => 4
  | .printing => 5
  | .persistence => 6

/-- Whether a list of ranks is nondecreasing. -/
def monotoneRanks : List Nat → Bool
  | [] => true
  | [_] => true
  | a :: b :: rest => decide (a ≤ b) && monotoneRanks (b :: rest)

/-- A statement is straight-line when it is not a loop, a conditional, or a
function or class definition. -/
def straightLineStmt : Stmt → Bool
  | .forStmt _ _ => false
  | .whileStmt _ _ => false
  | .ifStmt _ _ _ => false
  | .defStmt _ => false
  | .classStmt _ => false
  | _ => true

/-- A statement that introduces an author-defined function or data type. -/
def authorDefines : Stmt → Bool
  | .defStmt _ => true
  | .classStmt _ => true
  | _ => false

/-- Statements that perform a framework call (or print): everything except
the import, the module-alias assignment, comments, and the control-flow
forms. -/
def emitsCall : Stmt → Bool
  | .importTF => false
  | .assignMnist => false
  | .commentStmt _ => false
  | .forStmt _ _ => false
  | .whileStmt _ _ => false
  | .ifStmt _ _ _ => false
  | .defStmt _ => false
  | .classStmt _ => false
  | _ => true

/-- Whether an event is an `evaluate` call. -/
def isEvaluateEvent : Event → Bool
  | .evaluateCall _ _ _ => true
  | _ => false

/-- Whether an event is an `evaluate` call on the given model variable. -/
def isEvalOn (m : MVar) : Event → Bool
  | .evaluateCall m' _ _ => m' == m
  | _ => false

/-- Whether an event is a `fit` call on the given model variable. -/
def isFitOn (m : MVar) : Event → Bool
  | .fitCall m' _ _ _ _ => m' == m
  | _ => false

/-- The image-data argument of a `fit` or `evaluate` call. -/
def fitOrEvalX : Event → Option Data
  | .fitCall _ x _ _ _ => some x
  | .evaluateCall _ x _ => some x
  | _ => none

/-- The label-data argument of a `fit` or `evaluate` call. -/
def fitOrEvalY : Event → Option Data
  | .fitCall _ _ y _ _ => some y
  | .evaluateCall _ _ y => some y
  | _ => none

/-- The argument of a `normalize` call. -/
def normalizeArg : Event → Option Data
  | .normalizeCall d _ => some d
  | _ => none

/-- The model variable, data arguments, epoch count and batch size of a
`fit` call. -/
def fitInfo : Event → Option (MVar × Data × Data × Nat × Option Nat)
  | .fitCall m x y e b => some (m, x, y, e, b)
  | _ => none

/-- Whether an event saves a model to disk or loads one from disk. -/
def isPersistenceEvent : Event → Bool
  | .saveCall _ _ => true
  | .loadModelCall _ => true
  | _ => false

/-- Whether a statement saves a model to disk or loads one from disk. -/
def isPersistenceStmt : Stmt → Bool
  | .saveStmt _ _ => true
  | .loadModelStmt _ _ => true
  | _ => false

/-- Whether a statement is a comment. -/
def isCommentStmt : Stmt → Bool
  | .commentStmt _ => true
  | _ => false

/-- Whether a statement is a commented-out `load_model(...).evaluate(...)`
line. -/
def isLoadModelComment : Stmt → Bool
  | .commentStmt (.loadModelEval _) => true
  | _ => false

/-- C1, counterexample: the claim says the evaluation step computes test
accuracy for both the dense model and the SimpleNet model, but the run
contains no `evaluate` call on `SimpleNet_model` (the SimpleNet evaluation
line is commented out), so it is not the case that both models are
evaluated. -/
theorem c1_counterexample :
    ¬ (theTrace.any (isEvalOn MVar.model) = true ∧
       theTrace.any (isEvalOn MVar.simpleNet) = true) := by decide

/-- C1, amended: the evaluation step computes test loss and accuracy only
for the dense model — the run's sole `evaluate` call is
`model.evaluate(x_test, y_test)` — while the SimpleNet model is trained
(its `fit` call occurs) but never evaluated. -/
theorem c1_evaluation_dense_only :
    theTrace.filter isEvaluateEvent =
      [Event.evaluateCall MVar.model (Data.norm Data.xTestRaw 1) Data.yTestRaw] ∧
    theTrace.filter (isEvalOn MVar.simpleNet) = [] ∧
    theTrace.any (isFitOn MVar.simpleNet) = true := by decide

/-- C2, counterexample: the claim requires the six steps to occur in the
order (a) acquisition, (b) normalization, (c) model definition, (d)
training, (e) evaluation, (f) printing, with all of (c) before all of (d);
but the step ranks along the run's trace are not nondecreasing, because the
dense model is trained before the SimpleNet model is defined. -/
theorem c2_counterexample :
    monotoneRanks (theTrace.map (fun e => stepRank (stepOf e))) = false := by decide

/-- C2, amended: the run performs acquisition, then normalization, then —
per architecture, dense first — model definition followed by training, then
evaluation, then printing; the two architectures' definition and training
phases interleave, but each step still follows every step it depends on. -/
theorem c2_step_sequence :
    theTrace.map stepOf =
      [Step.acquisition,
       Step.normalization, Step.normalization,
       Step.modelDefinition, Step.modelDefinition, Step.modelDefinition,
       Step.modelDefinition, Step.modelDefinition,
       Step.training, Step.training,
       Step.modelDefinition, Step.modelDefinition, Step.modelDefinition,
       Step.modelDefinition, Step.modelDefinition, Step.modelDefinition,
       Step.modelDefinition, Step.modelDefinition, Step.modelDefinition,
       Step.modelDefinition,
       Step.training, Step.training,
       Step.evaluation,
       Step.printing, Step.printing] := by decide

/-- C3: the run starts by loading the data and immediately normalizing both
`x_train` and `x_test` (before any model is defined, trained or evaluated),
and every `fit` and `evaluate` call receives a normalized image array —
`normalize(x_train, axis=1)` for the two fits and `normalize(x_test,
axis=1)` for the evaluation — never a raw loaded array. -/
theorem c3_normalized_data_only :
    theTrace.take 3 =
      [Event.loadData,
       Event.normalizeCall Data.xTrainRaw 1,
       Event.normalizeCall Data.xTestRaw 1] ∧
    theTrace.filterMap fitOrEvalX =
      [Data.norm Data.xTrainRaw 1, Data.norm Data.xTrainRaw 1,
       Data.norm Data.xTestRaw 1] := by decide

/-- C4, counterexample: the claim says each of the six steps is a single
framework call, but the normalization step consists of two calls (one for
`x_train` and one for `x_test`), not one. -/
theorem c4_counterexample :
    ¬ theTrace.countP (fun e => stepOf e == Step.normalization) = 1 := by decide

/-- C4, amended: each step is a fixed straight-line sequence of framework
calls with no author-designed control flow — acquisition and evaluation are
single calls, but normalization comprises two calls, model definition
fifteen (one `Sequential` constructor plus one `add` per layer for each
architecture), training four (`compile` and `fit` for each architecture),
and printing two. -/
theorem c4_step_call_counts :
    theTrace.countP (fun e => stepOf e == Step.acquisition) = 1 ∧
    theTrace.countP (fun e => stepOf e == Step.normalization) = 2 ∧
    theTrace.countP (fun e => stepOf e == Step.modelDefinition) = 15 ∧
    theTrace.countP (fun e => stepOf e == Step.training) = 4 ∧
    theTrace.countP (fun e => stepOf e == Step.evaluation) = 1 ∧
    theTrace.countP (fun e => stepOf e == Step.printing) = 2 ∧
    program.all straightLineStmt = true := by decide

/-- C5: every statement of the notebook is straight-line (no loop,
conditional, or author-defined function or class), and the run executes
each of the 25 call-performing statements exactly once: the trace has
exactly as many events as the program has call sites. -/
theorem c5_straight_line_each_call_once :
    program.all straightLineStmt = true ∧
    (program.filter emitsCall).length = 25 ∧
    theTrace.length = 25 := by decide

/-- C6: the author implements no custom algorithm or data structure — the
notebook contains no function or class definition, and every event of the
run is an invocation of the external framework (or a print of its result),
so gradient descent, convolution, backpropagation and batching all live
behind the `fit`, `compile` and layer-construction calls. -/
theorem c6_no_author_algorithms :
    program.all (fun s => !authorDefines s) = true ∧
    program.all straightLineStmt = true := by decide

/-- C7: the printing step outputs exactly the two components of the pair
returned by `model.evaluate(x_test, y_test)`, unchanged: the trace ends
with the evaluation call followed by a print of its first component (the
loss) and a print of its second component (the accuracy), and the `loss`
and `accuracy` variables hold those same components at the end of the
run. -/
theorem c7_print_matches_evaluate :
    theTrace.drop 22 =
      [Event.evaluateCall MVar.model (Data.norm Data.xTestRaw 1) Data.yTestRaw,
       Event.printCall LabelText.lossLabel
         (evaluateResult denseLayers (Data.norm Data.xTestRaw 1) Data.yTestRaw).1,
       Event.printCall LabelText.accuracyLabel
         (evaluateResult denseLayers (Data.norm Data.xTestRaw 1) Data.yTestRaw).2] ∧
    notebookRun.bind St.loss =
      some (evaluateResult denseLayers (Data.norm Data.xTestRaw 1) Data.yTestRaw).1 ∧
    notebookRun.bind St.accuracy =
      some (evaluateResult denseLayers (Data.norm Data.xTestRaw 1) Data.yTestRaw).2 := by decide

/-- C8: the run performs no persistence — its trace contains no model-save
and no model-load call, the program contains no save or `load_model`
statement, and the three `load_model(...).evaluate(...)` lines of the
source occur only as comments (which execute as no-ops). -/
theorem c8_no_persistence :
    theTrace.all (fun e => !isPersistenceEvent e) = true ∧
    program.all (fun s => !isPersistenceStmt s) = true ∧
    program.countP isLoadModelComment = 3 ∧
    program.countP isCommentStmt = 3 := by decide

/-- C9: the labels are never modified — the `y` arguments of the two `fit`
calls and of the `evaluate` call are exactly the raw `y_train`, `y_train`
and `y_test` returned by `mnist.load_data()`, the normalization calls are
applied only to the image arrays `x_train` and `x_test`, and at the end of
the run the label variables still hold the raw loaded values. -/
theorem c9_labels_untouched :
    theTrace.filterMap fitOrEvalY =
      [Data.yTrainRaw, Data.yTrainRaw, Data.yTestRaw] ∧
    theTrace.filterMap normalizeArg = [Data.xTrainRaw, Data.xTestRaw] ∧
    notebookRun.bind St.y_train = some Data.yTrainRaw ∧
    notebookRun.bind St.y_test = some Data.yTestRaw := by decide

/-- C10: the run contains exactly two `fit` calls — the dense model is
trained for 3 epochs with no explicit batch size (so the framework default
applies), the SimpleNet model for 10 epochs with batch size 64 — and both
are trained on the same normalized training data `(normalize(x_train,
axis=1), y_train)`. -/
theorem c10_training_regimes :
    theTrace.filterMap fitInfo =
      [(MVar.model, Data.norm Data.xTrainRaw 1, Data.yTrainRaw, 3, none),
       (MVar.simpleNet, Data.norm Data.xTrainRaw 1, Data.yTrainRaw, 10, some 64)] := by decide

end DigitRecognition
